import Mathlib

/-!
Verification development for the CrossDome scoring-and-ranking engine.

The engine validates 9-residue peptides, encodes residues as ordinal codes,
computes a position-weighted relatedness metric between a query and each
member of a background set, and derives ranking statistics (z-score, p-value,
percentile rank, ordinal rank) over the batch of raw scores.

Conventions of the embedding:
* Python strings of residues are `List Char`; numeric work is over `ℝ`
  (floating point is modelled as exact real arithmetic, with IEEE NaN made
  explicit as `Option.none` / `Cell.nan` where the pipeline can produce it).
* Fallible Python code (`raise`) is modelled with `Except`.
* `numpy.sqrt` on a nonnegative real is `Real.sqrt`.
* The wall clock used for the result timestamp is passed in explicitly.
-/

open MeasureTheory

namespace Crossdome

/-- The 20-letter standard amino-acid alphabet, in the fixed order that the
residue encoder enumerates (the string `"ACDEFGHIKLMNPQRSTVWY"`). -/
def standardAminoAcids : List Char :=
  ['A', 'C', 'D', 'E', 'F', 'G', 'H', 'I', 'K', 'L', 'M', 'N',
   'P', 'Q', 'R', 'S', 'T', 'V', 'W', 'Y']

/-- The two failure modes of `_internal_checking_peptide`.  In the source both
are `ValueError`s, distinguished by their messages (wrong size vs. non-standard
residue); here they are distinguished by constructor. -/
inductive PeptideError where
  | invalidLength (n : ℕ)
  | invalidResidue (p : List Char)
deriving DecidableEq, Repr

/-- Embedding of `_internal_checking_peptide`: reject unless the peptide has
length exactly 9, then reject unless every residue is a standard amino acid;
otherwise return the peptide split into its residues (`list(peptide)`, which
for a `List Char` input is the input itself, unchanged). -/
def internalCheckingPeptide (peptide : List Char) : Except PeptideError (List Char) :=
  if peptide.length ≠ 9 then
    Except.error (PeptideError.invalidLength peptide.length)
  else if !(peptide.all fun residue => standardAminoAcids.contains residue) then
    Except.error (PeptideError.invalidResidue peptide)
  else
    Except.ok peptide

/-- Embedding of the `aa_to_num` mapping built in `_amino_acid_to_numeric`:
each amino acid is sent to its index in the alphabet enumeration.  For a
character outside the alphabet `indexOf` returns 20; that branch corresponds
to the `KeyError` path of the Python dict and is unreachable after
validation, which every caller performs first. -/
def aaToNum (residue : Char) : ℕ :=
  standardAminoAcids.indexOf residue

/-- Embedding of `_internal_related_distance`.  Following the source line by
line: encode both sequences, square the positionwise code differences, take
the square root of their **sum** (a scalar); when a weight vector is given,
multiply that scalar by `sqrt` of each weight (numpy broadcasting turns the
scalar into a vector of length `len(weights)`); finally divide the sum of the
result by `sqrt(len(query) * (20 - 1)^2)`. -/
noncomputable def internalRelatedDistance (queryComponents subjectComponents : List Char)
    (positionWeight : Option (List ℝ)) : ℝ :=
  let queryNumeric : List ℤ := queryComponents.map (fun r => (aaToNum r : ℤ))
  let subjectNumeric : List ℤ := subjectComponents.map (fun r => (aaToNum r : ℤ))
  let productComponents : List ℤ :=
    List.zipWith (fun a b => (a - b) ^ 2) queryNumeric subjectNumeric
  let score : ℝ := Real.sqrt ((productComponents.sum : ℝ))
  let weighted : List ℝ :=
    match positionWeight with
    | none => [score]
    | some ws => ws.map (fun w => score * Real.sqrt w)
  let maxPossibleDistance : ℝ :=
    Real.sqrt ((queryComponents.length : ℝ) * ((standardAminoAcids.length : ℝ) - 1) ^ 2)
  weighted.sum / maxPossibleDistance

/-- Embedding of `_internal_percentile_rank`: `[(rank / (len - 1)) * 100 for
rank in range(len)]` with Python true division.  For a single score the only
iteration evaluates `0 / 0` on integers, which raises `ZeroDivisionError`;
that failure is `none`.  An empty input produces an empty list without ever
dividing. -/
noncomputable def internalPercentileRank (scores : List ℝ) : Option (List ℝ) :=
  if scores.length = 1 then none
  else some ((List.range scores.length).map
    (fun (rank : ℕ) => ((rank : ℝ) / ((scores.length : ℝ) - 1)) * 100))

/-- `sum(q == c for q, c in zip(query, element))` from `cross_compose`:
the number of positions (up to the shorter length) where the two peptides
agree by direct character comparison. -/
def numPositive (query element : List Char) : ℕ :=
  (List.zip query element).countP (fun qc => qc.1 == qc.2)

/-- Embedding of the `xrBackground` class state: the allele tag, the peptide
list, and the `stats` dictionary flattened into its two keys
(`'off-target'` and `'database'`). -/
structure xrBackground where
  allele : String
  peptides : List (List Char)
  offTarget : ℕ
  database : ℕ
deriving DecidableEq, Repr

/-- Embedding of `xrBackground.__init__`: the fields are populated and then
the constructor raises `ValueError("All peptides must be 9-mers.")` unless
every peptide has length 9.  A raise inside `__init__` means no object is
returned to the caller, so a failed construction is `Except.error`.  Note the
check is on length only; residue membership is not examined here. -/
def xrBackground.init (allele : String) (peptides : List (List Char)) :
    Except String xrBackground :=
  if peptides.all (fun pep => pep.length == 9) then
    Except.ok { allele := allele, peptides := peptides,
                offTarget := 0, database := peptides.length }
  else
    Except.error "All peptides must be 9-mers."

/-- `Series.mean()` over the raw scores. -/
noncomputable def seriesMean (xs : List ℝ) : ℝ :=
  xs.sum / (xs.length : ℝ)

/-- `Series.std()` over the raw scores: pandas defaults to the sample
standard deviation with `N - 1` denominator (`ddof=1`).  For fewer than two
values pandas yields NaN (`0/0` inside the variance), modelled as `none`. -/
noncomputable def seriesStd (xs : List ℝ) : Option ℝ :=
  if xs.length < 2 then none
  else some (Real.sqrt
    ((xs.map (fun x => (x - seriesMean xs) ^ 2)).sum / ((xs.length : ℝ) - 1)))

/-- The `zscore` column assignment of `cross_compose`:
`(scores - scores.mean()) / scores.std()`.  A NaN entry is `none`: the
standard deviation is NaN when there are fewer than two scores, and when the
standard deviation is 0 every numerator is also 0, so each entry is the IEEE
quotient `0/0 = NaN`. -/
noncomputable def zscoreColumn (xs : List ℝ) : List (Option ℝ) :=
  xs.map (fun x =>
    match seriesStd xs with
    | none => none
    | some sd => if sd = 0 then none else some ((x - seriesMean xs) / sd))

/-- `scipy.stats.norm.cdf`: the standard normal lower-tail probability. -/
noncomputable def normCdf (z : ℝ) : ℝ :=
  ∫ t in Set.Iic z, Real.exp (-(t ^ 2) / 2) / Real.sqrt (2 * Real.pi)

/-- One value in a DataFrame column: a string, a real, an integer, or NaN. -/
inductive Cell where
  | str (s : List Char)
  | real (x : ℝ)
  | nat (n : ℕ)
  | nan

/-- One DataFrame row, as the association list from column name to value. -/
abbrev AssocRow : Type := List (String × Cell)

/-- The `zscore` cell of a row: a real, or NaN for an undefined z-score. -/
def zscoreCell : Option ℝ → Cell
  | none => Cell.nan
  | some z => Cell.real z

/-- The `pvalue` cell of a row: `norm.cdf` of the z-score (`norm.cdf(nan)`
is NaN). -/
noncomputable def pvalueCell : Option ℝ → Cell
  | none => Cell.nan
  | some z => Cell.real (normCdf z)

/-- The dictionary appended to `results` for one background member inside the
`cross_compose` loop, before the statistics columns exist. -/
structure RawRow where
  query : List Char
  subject : List Char
  relatedness_score : ℝ
  num_positive : ℕ
  num_negative : ℕ
deriving Inhabited

/-- One fully annotated row of the result DataFrame: the five raw columns in
insertion order followed by the four statistics columns in the order
`cross_compose` assigns them. -/
noncomputable def annotatedRow (raw : RawRow) (z : Option ℝ) (percentileRank : ℝ)
    (rank : ℕ) : AssocRow :=
  [("query", Cell.str raw.query),
   ("subject", Cell.str raw.subject),
   ("relatedness_score", Cell.real raw.relatedness_score),
   ("num_positive", Cell.nat raw.num_positive),
   ("num_negative", Cell.nat raw.num_negative),
   ("zscore", zscoreCell z),
   ("pvalue", pvalueCell z),
   ("percentile_rank", Cell.real percentileRank),
   ("rank", Cell.nat rank)]

/-- The final DataFrame of `cross_compose`: row `i` pairs the `i`-th raw row
with the `i`-th z-score, the `i`-th percentile rank, and the 1-based ordinal
rank `i + 1` (`result_dataframe.index + 1`). -/
noncomputable def annotateTable (raws : List RawRow) (zs : List (Option ℝ))
    (prs : List ℝ) : List AssocRow :=
  (List.range raws.length).map (fun i =>
    annotatedRow (raws.getD i default) (zs.getD i none) (prs.getD i 0) (i + 1))

/-- Embedding of the `xrResult` class state.  The `expression` and `analysis`
dictionaries start empty; the timestamp string is whatever the wall clock
read at construction. -/
structure xrResult where
  query : List Char
  result : List AssocRow
  allele : String
  expression : List (String × Cell)
  analysis : List (String × Cell)
  position_weight : List ℝ
  timestamp : String

/-- `position_weight or [1.0] * 9`: Python replaces both `None` and an empty
(falsy) list by the all-ones default. -/
def weightsOrDefault : Option (List ℝ) → List ℝ
  | none => List.replicate 9 1
  | some [] => List.replicate 9 1
  | some ws => ws

/-- The ways `cross_compose` can raise: a `ValueError` from peptide
validation, the `KeyError` from selecting the score column of the empty
DataFrame built from an empty background, and the `ZeroDivisionError` from
`_internal_percentile_rank` on a single score. -/
inductive ComposeError where
  | invalidPeptide (e : PeptideError)
  | emptyBackground
  | divisionByZero
deriving DecidableEq, Repr

/-- The body of the `cross_compose` loop for one background member: validate
the member, then record the raw measurement dictionary for the pair. -/
noncomputable def composeRow (query queryPeptide : List Char) (pw : List ℝ)
    (element : List Char) : Except ComposeError RawRow := do
  let backgroundPeptide ←
    (internalCheckingPeptide element).mapError ComposeError.invalidPeptide
  Except.ok
    { query := query
      subject := element
      relatedness_score := internalRelatedDistance queryPeptide backgroundPeptide (some pw)
      num_positive := numPositive query element
      num_negative := 9 - numPositive query element : RawRow }

/-- Embedding of `cross_compose`: validate the query, default the weights,
then for each background member in order validate it and record the raw
measurement dictionary (`composeRow`); afterwards assign the `zscore`,
`pvalue`, `percentile_rank` and `rank` columns over the whole batch and wrap
everything in an `xrResult`.  A validation failure anywhere aborts the whole
call. -/
noncomputable def cross_compose (query : List Char) (background : xrBackground)
    (positionWeight : Option (List ℝ)) (now : String) :
    Except ComposeError xrResult := do
  let queryPeptide ← (internalCheckingPeptide query).mapError ComposeError.invalidPeptide
  let pw := weightsOrDefault positionWeight
  let rawRows ← background.peptides.mapM (composeRow query queryPeptide pw)
  if rawRows.length = 0 then
    Except.error ComposeError.emptyBackground
  else
    let scores := rawRows.map RawRow.relatedness_score
    match internalPercentileRank scores with
    | none => Except.error ComposeError.divisionByZero
    | some percentileRanks =>
      Except.ok
        { query := query
          result := annotateTable rawRows (zscoreColumn scores) percentileRanks
          allele := background.allele
          expression := []
          analysis := []
          position_weight := pw
          timestamp := now }

/-- Embedding of `calculate_relatedness`: validate both peptides, default the
weights, compute the internal relatedness with those weights, and divide by
`sqrt(len(query_peptide))`. -/
noncomputable def calculate_relatedness (query candidate : List Char)
    (positionWeight : Option (List ℝ)) : Except PeptideError ℝ := do
  let queryPeptide ← internalCheckingPeptide query
  let candidatePeptide ← internalCheckingPeptide candidate
  let pw := weightsOrDefault positionWeight
  let rawScore := internalRelatedDistance queryPeptide candidatePeptide (some pw)
  Except.ok (rawScore / Real.sqrt (queryPeptide.length : ℝ))

/-- Column projection `df[columns]`: pandas keeps exactly the requested
columns, in the requested order, and raises `KeyError` when any requested
column is absent from the frame — it never silently drops a missing name.
In this row-oriented model the schema lives in the rows, so the projection
succeeds exactly when every row carries every requested column (an empty
table has an empty schema and nothing to check). -/
def selectTable (table : List AssocRow) (columns : List String) :
    Except String (List AssocRow) :=
  if table.all (fun row => columns.all (fun c => (List.lookup c row).isSome)) then
    Except.ok (table.map (fun row => columns.filterMap (fun c =>
      (List.lookup c row).map (fun v => (c, v)))))
  else
    Except.error "KeyError"

/-- Column assignment `df[key] = value` for one row: overwrite the existing
binding for `key`, or append a new column at the end. -/
def rowSetCol (row : AssocRow) (key : String) (v : Cell) : AssocRow :=
  if row.any (fun kv => kv.1 == key) then
    row.map (fun kv => if kv.1 == key then (key, v) else kv)
  else
    row ++ [(key, v)]

/-- Column assignment `df[key] = value` over the whole table; the supplied
value may depend on the row index (a broadcast scalar is the constant
function). -/
def setColumn (table : List AssocRow) (key : String) (value : ℕ → Cell) :
    List AssocRow :=
  (List.range table.length).map (fun i => rowSetCol (table.getD i []) key (value i))

/-- The body of `xrResult.mutate`: assign each keyword argument as a column,
left to right. -/
def mutateTable (table : List AssocRow) (kwargs : List (String × (ℕ → Cell))) :
    List AssocRow :=
  kwargs.foldl (fun t kv => setColumn t kv.1 kv.2) table

/-- `xrResult.select`: `self.result = self.result[columns]; return self`.
When the projection raises `KeyError`, the assignment never executes: the
held table is left unchanged and no container is returned to the caller. -/
def xrResult.select (self : xrResult) (columns : List String) :
    Except String xrResult :=
  match selectTable self.result columns with
  | Except.ok t => Except.ok { self with result := t }
  | Except.error e => Except.error e

/-- `xrResult.filter`: `self.result = self.result.query(condition); return
self`.  The pandas condition string is modelled as a row predicate. -/
def xrResult.filter (self : xrResult) (condition : AssocRow → Bool) : xrResult :=
  { self with result := self.result.filter condition }

/-- `xrResult.mutate`: assign every keyword argument as a column of
`self.result` and `return self`. -/
def xrResult.mutate (self : xrResult) (kwargs : List (String × (ℕ → Cell))) :
    xrResult :=
  { self with result := mutateTable self.result kwargs }

instance {ε α : Type} [DecidableEq ε] [DecidableEq α] : DecidableEq (Except ε α) := fun x y =>
  match x, y with
  | .ok a, .ok b => decidable_of_iff (a = b) (by simp)
  | .error e, .error f => decidable_of_iff (e = f) (by simp)
  | .ok _, .error _ => isFalse (by simp)
  | .error _, .ok _ => isFalse (by simp)

lemma contains_alphabet_iff (c : Char) :
    standardAminoAcids.contains c = true ↔ c ∈ standardAminoAcids := by
  simp [List.contains, List.elem_iff]

lemma all_contains_iff (p : List Char) :
    (p.all fun residue => standardAminoAcids.contains residue) = true ↔
      ∀ c ∈ p, c ∈ standardAminoAcids := by
  simp only [List.all_eq_true, contains_alphabet_iff]

/-- Characterization of successful validation: the validator accepts exactly
the length-9 peptides over the standard alphabet and returns them unchanged. -/
theorem internalCheckingPeptide_ok_iff (p : List Char) :
    internalCheckingPeptide p = Except.ok p ↔
      p.length = 9 ∧ ∀ c ∈ p, c ∈ standardAminoAcids := by
  unfold internalCheckingPeptide
  by_cases h9 : p.length = 9
  · by_cases hall : (p.all fun residue => standardAminoAcids.contains residue) = true
    · simp [h9, hall, (all_contains_iff p).mp hall]
    · simp only [all_contains_iff] at hall
      simp [h9, hall]
  · simp [h9]

/-- C4: peptide validation returns the ordered residues of `s` exactly when
`s` has length 9 and every character is a standard amino acid; it fails with
the length error whenever the length differs from 9, fails with the residue
error when the length is 9 but some character is outside the alphabet, and
any accepted peptide is returned exactly as given (never truncated, padded,
or repaired). -/
theorem claim_c4_validation_contract (s : List Char) :
    (internalCheckingPeptide s = Except.ok s ↔
      s.length = 9 ∧ ∀ c ∈ s, c ∈ standardAminoAcids) ∧
    (s.length ≠ 9 →
      internalCheckingPeptide s = Except.error (PeptideError.invalidLength s.length)) ∧
    (s.length = 9 → (∃ c ∈ s, c ∉ standardAminoAcids) →
      internalCheckingPeptide s = Except.error (PeptideError.invalidResidue s)) ∧
    (∀ l, internalCheckingPeptide s = Except.ok l → l = s) := by
  refine ⟨internalCheckingPeptide_ok_iff s, ?_, ?_, ?_⟩
  · intro h9
    simp [internalCheckingPeptide, h9]
  · intro h9 hbad
    have hall : ¬((s.all fun residue => standardAminoAcids.contains residue) = true) := by
      simp only [all_contains_iff]
      rcases hbad with ⟨c, hc, hnot⟩
      exact fun h => hnot (h c hc)
    simp only [internalCheckingPeptide, h9]
    simp only [all_contains_iff] at hall ⊢
    simp [hall]
  · intro l hl
    unfold internalCheckingPeptide at hl
    split at hl
    · exact absurd hl (by simp)
    · split at hl
      · exact absurd hl (by simp)
      · exact (Except.ok.inj hl).symm

/-- C4 witness: a valid 9-mer is accepted unchanged, an 8-mer is rejected
with the length error, and a 9-mer containing `B` is rejected with the
residue error. -/
theorem claim_c4_validation_contract_witness :
    internalCheckingPeptide ['E', 'V', 'D', 'P', 'I', 'G', 'H', 'L', 'Y'] =
      Except.ok ['E', 'V', 'D', 'P', 'I', 'G', 'H', 'L', 'Y'] ∧
    internalCheckingPeptide ['E', 'V', 'D', 'P', 'I', 'G', 'H', 'L'] =
      Except.error (PeptideError.invalidLength 8) ∧
    internalCheckingPeptide ['B', 'A', 'D', 'L', 'E', 'N', 'G', 'T', 'H'] =
      Except.error (PeptideError.invalidResidue
        ['B', 'A', 'D', 'L', 'E', 'N', 'G', 'T', 'H']) :=
  ⟨(claim_c4_validation_contract _).1.mpr (by decide),
   (claim_c4_validation_contract ['E', 'V', 'D', 'P', 'I', 'G', 'H', 'L']).2.1 (by decide),
   (claim_c4_validation_contract _).2.2.1 (by decide) (by decide)⟩

/-- C5 as stated is false: `xrBackground.__init__` checks only the length of
each peptide, so a background whose only member is the length-9 peptide
`BBBBBBBBB` — which violates the residue half of the Peptide invariant — is
constructed successfully rather than rejected. -/
theorem claim_c5_counterexample :
    ¬(∀ c ∈ ['B', 'B', 'B', 'B', 'B', 'B', 'B', 'B', 'B'], c ∈ standardAminoAcids) ∧
    xrBackground.init "HLA-A*01:01" [['B', 'B', 'B', 'B', 'B', 'B', 'B', 'B', 'B']] =
      Except.ok { allele := "HLA-A*01:01",
                  peptides := [['B', 'B', 'B', 'B', 'B', 'B', 'B', 'B', 'B']],
                  offTarget := 0, database := 1 } :=
  ⟨by decide, rfl⟩

/-- C5 amended: background construction fails (returning no object) exactly
when some peptide's length differs from 9; a length-9 peptide containing
non-standard residues is accepted at construction, its invalid residues
surfacing only later, at scoring time. -/
theorem claim_c5_background_length_check (allele : String) (peptides : List (List Char)) :
    (xrBackground.init allele peptides =
        Except.ok { allele := allele, peptides := peptides,
                    offTarget := 0, database := peptides.length } ↔
      ∀ pep ∈ peptides, pep.length = 9) ∧
    ((∃ pep ∈ peptides, pep.length ≠ 9) →
      xrBackground.init allele peptides = Except.error "All peptides must be 9-mers.") := by
  have hiff : (peptides.all fun pep => pep.length == 9) = true ↔
      ∀ pep ∈ peptides, pep.length = 9 := by
    simp [List.all_eq_true]
  constructor
  · by_cases h : (peptides.all fun pep => pep.length == 9) = true
    · simp [xrBackground.init, h]
      exact hiff.mp h
    · simp only [hiff] at h
      simp [xrBackground.init, hiff, h]
  · intro hbad
    have h : ¬((peptides.all fun pep => pep.length == 9) = true) := by
      simp only [hiff]
      rcases hbad with ⟨pep, hp, hne⟩
      exact fun h => hne (h pep hp)
    simp [xrBackground.init, h]

/-- C5 amended, witness: an all-`A` 9-mer background constructs, and a
background containing a 2-mer is rejected with the length message. -/
theorem claim_c5_background_length_check_witness :
    xrBackground.init "HLA-A*01:01" [['A', 'A', 'A', 'A', 'A', 'A', 'A', 'A', 'A']] =
      Except.ok { allele := "HLA-A*01:01",
                  peptides := [['A', 'A', 'A', 'A', 'A', 'A', 'A', 'A', 'A']],
                  offTarget := 0, database := 1 } ∧
    xrBackground.init "HLA-A*01:01" [['A', 'A']] =
      Except.error "All peptides must be 9-mers." :=
  ⟨(claim_c5_background_length_check _ _).1.mpr (by decide),
   (claim_c5_background_length_check _ _).2 (by decide)⟩

/-- The scalar numerator inside the metric: the sum over aligned positions of
the squared difference of the two residues' codes. -/
def sqDiffSum (q s : List Char) : ℤ :=
  (List.zipWith (fun a b => (a - b) ^ 2)
    (q.map fun r => (aaToNum r : ℤ)) (s.map fun r => (aaToNum r : ℤ))).sum

/-- Closed form of the metric when a weight vector is supplied: the scalar
Euclidean distance of the code vectors, times the sum of the square roots of
all the weights, divided by `sqrt(len(query) * 19^2)`. -/
lemma internalRelatedDistance_some_eq (q s : List Char) (ws : List ℝ) :
    internalRelatedDistance q s (some ws) =
      Real.sqrt ((sqDiffSum q s : ℝ)) * (ws.map Real.sqrt).sum /
        Real.sqrt ((q.length : ℝ) * 361) := by
  simp only [internalRelatedDistance, sqDiffSum]
  rw [List.sum_map_mul_left]
  norm_num [standardAminoAcids]

/-- The squared-difference sum of a peptide against itself vanishes. -/
lemma sqDiffSum_self (p : List Char) : sqDiffSum p p = 0 := by
  unfold sqDiffSum
  have key : ∀ l : List ℤ, (List.zipWith (fun a b => (a - b) ^ 2) l l).sum = 0 := by
    intro l
    induction l with
    | nil => simp
    | cons a t ih => simp [ih]
  exact key _

/-- The metric of any peptide against itself with any supplied weight vector
is exactly 0: the scalar distance factor is `sqrt 0 = 0`. -/
lemma internalRelatedDistance_self (p : List Char) (w : List ℝ) :
    internalRelatedDistance p p (some w) = 0 := by
  rw [internalRelatedDistance_some_eq, sqDiffSum_self]
  simp

/-- C7: for every valid 9-residue peptide and every vector of 9 non-negative
weights, the relatedness of the peptide with itself is exactly 0. -/
theorem claim_c7_self_relatedness_zero (p : List Char) (w : List ℝ)
    (hp : internalCheckingPeptide p = Except.ok p)
    (hw9 : w.length = 9) (hw : ∀ x ∈ w, 0 ≤ x) :
    internalRelatedDistance p p (some w) = 0 :=
  internalRelatedDistance_self p w

/-- C7 witness: the query of the repository's own test suite against itself
under the default all-ones weights scores exactly 0. -/
theorem claim_c7_self_relatedness_zero_witness :
    internalRelatedDistance ['E', 'V', 'D', 'P', 'I', 'G', 'H', 'L', 'Y']
      ['E', 'V', 'D', 'P', 'I', 'G', 'H', 'L', 'Y'] (some (List.replicate 9 1)) = 0 :=
  claim_c7_self_relatedness_zero _ _ (by decide) (by simp)
    (by intro x hx; rw [List.eq_of_mem_replicate hx]; norm_num)

/-- C1 as stated is false: for the maximally distant valid pair `AAAAAAAAA`
versus `YYYYYYYYY` under the default all-ones weight vector — exactly the
per-pair call the batch scorer makes — the metric evaluates to 9, far outside
`[0, 1]`.  The scalar distance 57 is normalized to 1, but the weighting step
then multiplies it by `sqrt 1` once per position and sums the nine copies. -/
theorem claim_c1_counterexample :
    weightsOrDefault none = List.replicate 9 1 ∧
    internalCheckingPeptide (List.replicate 9 'A') = Except.ok (List.replicate 9 'A') ∧
    internalCheckingPeptide (List.replicate 9 'Y') = Except.ok (List.replicate 9 'Y') ∧
    internalRelatedDistance (List.replicate 9 'A') (List.replicate 9 'Y')
      (some (List.replicate 9 1)) = 9 ∧
    ¬(internalRelatedDistance (List.replicate 9 'A') (List.replicate 9 'Y')
        (some (List.replicate 9 1)) ≤ 1) := by
  have hmain : internalRelatedDistance (List.replicate 9 'A') (List.replicate 9 'Y')
      (some (List.replicate 9 1)) = 9 := by
    rw [internalRelatedDistance_some_eq]
    have hsq : sqDiffSum (List.replicate 9 'A') (List.replicate 9 'Y') = 3249 := by decide
    have hmap : ((List.replicate 9 (1:ℝ)).map Real.sqrt).sum = 9 := by
      rw [List.map_replicate, Real.sqrt_one, List.sum_replicate]
      norm_num
    rw [hsq, hmap, List.length_replicate]
    rw [show ((3249:ℤ):ℝ) = 57 ^ 2 by norm_num,
        show ((9:ℕ):ℝ) * 361 = 57 ^ 2 by norm_num,
        Real.sqrt_sq (by norm_num : (0:ℝ) ≤ 57)]
    norm_num
  exact ⟨rfl, by decide, by decide, hmain, by rw [hmain]; norm_num⟩

/-- Every code produced by the encoder on a standard residue is below 20. -/
lemma aaToNum_lt_twenty (c : Char) (hc : c ∈ standardAminoAcids) : aaToNum c < 20 := by
  have h := List.indexOf_lt_length.mpr hc
  simpa [aaToNum, standardAminoAcids] using h

/-- Bound on the squared-difference sum for code lists whose entries lie in
`[0, 19]`: at most 361 per aligned position. -/
lemma zipWith_sq_sum_le : ∀ l1 l2 : List ℤ,
    (∀ a ∈ l1, 0 ≤ a ∧ a ≤ 19) → (∀ a ∈ l2, 0 ≤ a ∧ a ≤ 19) →
    (List.zipWith (fun a b => (a - b) ^ 2) l1 l2).sum ≤
      (min l1.length l2.length : ℤ) * 361 := by
  intro l1
  induction l1 with
  | nil => intro l2 _ _; simp
  | cons a t ih =>
    intro l2 h1 h2
    cases l2 with
    | nil =>
      simp
      omega
    | cons b u =>
      have ha := h1 a (List.mem_cons_self a t)
      have hb := h2 b (List.mem_cons_self b u)
      have hhead : (a - b) ^ 2 ≤ 361 := by nlinarith [ha.1, ha.2, hb.1, hb.2]
      have htail := ih u (fun x hx => h1 x (List.mem_cons_of_mem a hx))
        (fun x hx => h2 x (List.mem_cons_of_mem b hx))
      simp only [List.zipWith_cons_cons, List.sum_cons, List.length_cons]
      push_cast
      have hmin : ((t.length : ℤ) + 1) ⊓ ((u.length : ℤ) + 1) =
          (t.length : ℤ) ⊓ (u.length : ℤ) + 1 := by omega
      rw [hmin]
      linarith

/-- The squared-difference sum of two valid peptides of length 9 is at most
`9 * 361 = 3249`, with equality only attainable at maximal per-position
distance. -/
lemma sqDiffSum_le (p q : List Char)
    (hp9 : p.length = 9) (hq9 : q.length = 9)
    (hp : ∀ c ∈ p, c ∈ standardAminoAcids) (hq : ∀ c ∈ q, c ∈ standardAminoAcids) :
    sqDiffSum p q ≤ 3249 := by
  unfold sqDiffSum
  have hbound : ∀ (l : List Char), (∀ c ∈ l, c ∈ standardAminoAcids) →
      ∀ a ∈ l.map (fun r => (aaToNum r : ℤ)), 0 ≤ a ∧ a ≤ 19 := by
    intro l hl a ha
    rcases List.mem_map.mp ha with ⟨c, hc, rfl⟩
    have := aaToNum_lt_twenty c (hl c hc)
    constructor
    · exact Int.ofNat_nonneg _
    · exact_mod_cast Nat.lt_succ_iff.mp (by omega)
  have h := zipWith_sq_sum_le _ _ (hbound p hp) (hbound q hq)
  simpa [hp9, hq9] using h

/-- The squared-difference sum is non-negative (a sum of squares). -/
lemma sqDiffSum_nonneg (p q : List Char) : 0 ≤ sqDiffSum p q := by
  unfold sqDiffSum
  apply List.sum_nonneg
  intro x hx
  have key : ∀ l1 l2 : List ℤ, x ∈ List.zipWith (fun a b => (a - b) ^ 2) l1 l2 → 0 ≤ x := by
    intro l1
    induction l1 with
    | nil => intro l2 h; simp at h
    | cons a t ih =>
      intro l2 h
      cases l2 with
      | nil => simp at h
      | cons b u =>
        simp only [List.zipWith_cons_cons, List.mem_cons] at h
        rcases h with h | h
        · rw [h]; positivity
        · exact ih u h
  exact key _ _ hx

/-- C1 amended: for valid peptides and non-negative weights the per-pair
metric lies in `[0, Σ_i sqrt(w_i)]`.  With the default all-ones weight vector
that interval is `[0, 9]`, not `[0, 1]`: the scalar distance is normalized by
the maximum 57, but the result is then multiplied by the sum of the square
roots of all nine weights. -/
theorem claim_c1_relatedness_bounds (p q : List Char) (w : List ℝ)
    (hp : internalCheckingPeptide p = Except.ok p)
    (hq : internalCheckingPeptide q = Except.ok q)
    (hw : ∀ x ∈ w, 0 ≤ x) :
    0 ≤ internalRelatedDistance p q (some w) ∧
    internalRelatedDistance p q (some w) ≤ (w.map Real.sqrt).sum := by
  obtain ⟨hp9, hpmem⟩ := (internalCheckingPeptide_ok_iff p).mp hp
  obtain ⟨hq9, hqmem⟩ := (internalCheckingPeptide_ok_iff q).mp hq
  rw [internalRelatedDistance_some_eq]
  have hT : 0 ≤ (w.map Real.sqrt).sum := by
    apply List.sum_nonneg
    intro x hx
    rcases List.mem_map.mp hx with ⟨y, _, rfl⟩
    exact Real.sqrt_nonneg y
  have hD : 0 ≤ Real.sqrt ((sqDiffSum p q : ℝ)) := Real.sqrt_nonneg _
  constructor
  · exact div_nonneg (mul_nonneg hD hT) (Real.sqrt_nonneg _)
  · have hM : Real.sqrt ((p.length : ℝ) * 361) = 57 := by
      rw [hp9, show ((9:ℕ):ℝ) * 361 = 57 ^ 2 by norm_num,
          Real.sqrt_sq (by norm_num : (0:ℝ) ≤ 57)]
    have hD57 : Real.sqrt ((sqDiffSum p q : ℝ)) ≤ 57 := by
      have hle : ((sqDiffSum p q : ℤ) : ℝ) ≤ 3249 := by
        exact_mod_cast sqDiffSum_le p q hp9 hq9 hpmem hqmem
      calc Real.sqrt ((sqDiffSum p q : ℝ)) ≤ Real.sqrt 3249 := Real.sqrt_le_sqrt hle
        _ = 57 := by
            rw [show (3249:ℝ) = 57 ^ 2 by norm_num,
                Real.sqrt_sq (by norm_num : (0:ℝ) ≤ 57)]
    rw [hM]
    calc Real.sqrt ((sqDiffSum p q : ℝ)) * (w.map Real.sqrt).sum / 57
        ≤ 57 * (w.map Real.sqrt).sum / 57 := by
          apply div_le_div_of_nonneg_right ?_ (by norm_num)
          · exact mul_le_mul_of_nonneg_right hD57 hT
      _ = (w.map Real.sqrt).sum := by field_simp

/-- C1 amended, witness: the maximally distant pair under all-ones weights
lies in `[0, Σ sqrt(w_i)] = [0, 9]`. -/
theorem claim_c1_relatedness_bounds_witness :
    0 ≤ internalRelatedDistance (List.replicate 9 'A') (List.replicate 9 'Y')
      (some (List.replicate 9 1)) ∧
    internalRelatedDistance (List.replicate 9 'A') (List.replicate 9 'Y')
      (some (List.replicate 9 1)) ≤ ((List.replicate 9 (1:ℝ)).map Real.sqrt).sum :=
  claim_c1_relatedness_bounds _ _ _ (by decide) (by decide)
    (by intro x hx; rw [List.eq_of_mem_replicate hx]; norm_num)

/-- C2 as stated is false: take the query `AAAAAAAAA`, the weight vector
`[0,1,1,1,1,1,1,1,1]` (weight 0 at the first position), and the two valid
candidates `AAAAAAAAA` and `CAAAAAAAA`, which differ only at that
zero-weighted first position.  Their scores are `0` and `8/57`: the
substituted residue still changes the shared scalar distance factor, so a
zero weight does not make the metric invariant at its position. -/
theorem claim_c2_counterexample :
    (0 :: List.replicate 8 (1:ℝ)).getD 0 1 = 0 ∧
    (['C'] ++ List.replicate 8 'A').drop 1 = (List.replicate 9 'A').drop 1 ∧
    (['C'] ++ List.replicate 8 'A').getD 0 ' ' ≠ (List.replicate 9 'A').getD 0 ' ' ∧
    internalCheckingPeptide (List.replicate 9 'A') = Except.ok (List.replicate 9 'A') ∧
    internalCheckingPeptide (['C'] ++ List.replicate 8 'A') =
      Except.ok (['C'] ++ List.replicate 8 'A') ∧
    internalRelatedDistance (List.replicate 9 'A') (List.replicate 9 'A')
      (some (0 :: List.replicate 8 1)) = 0 ∧
    internalRelatedDistance (List.replicate 9 'A') (['C'] ++ List.replicate 8 'A')
      (some (0 :: List.replicate 8 1)) = 8 / 57 ∧
    (8:ℝ) / 57 ≠ 0 := by
  refine ⟨rfl, by decide, by decide, by decide, by decide,
    internalRelatedDistance_self _ _, ?_, by norm_num⟩
  rw [internalRelatedDistance_some_eq]
  have hsq : sqDiffSum (List.replicate 9 'A') (['C'] ++ List.replicate 8 'A') = 1 := by decide
  have hmap : ((0 :: List.replicate 8 (1:ℝ)).map Real.sqrt).sum = 8 := by
    rw [List.map_cons, List.map_replicate, List.sum_cons, Real.sqrt_zero, Real.sqrt_one,
        List.sum_replicate]
    norm_num
  rw [hsq, hmap, List.length_replicate]
  rw [show ((1:ℤ):ℝ) = 1 by norm_num, Real.sqrt_one,
      show ((9:ℕ):ℝ) * 361 = 57 ^ 2 by norm_num,
      Real.sqrt_sq (by norm_num : (0:ℝ) ≤ 57)]
  norm_num

/-- C2 amended: a single zero weight does not zero out its position's
contribution — the position still enters the shared distance factor — but the
all-zero weight vector does annihilate the metric: every score is then 0, so
the metric is invariant to every substitution. -/
theorem claim_c2_zero_weights (p q1 q2 : List Char) (w : List ℝ)
    (hw : ∀ x ∈ w, x = 0) :
    internalRelatedDistance p q1 (some w) = 0 ∧
    internalRelatedDistance p q1 (some w) = internalRelatedDistance p q2 (some w) := by
  have key : ∀ q, internalRelatedDistance p q (some w) = 0 := by
    intro q
    rw [internalRelatedDistance_some_eq]
    have hzero : (w.map Real.sqrt).sum = 0 := by
      apply List.sum_eq_zero
      intro x hx
      rcases List.mem_map.mp hx with ⟨y, hy, rfl⟩
      rw [hw y hy, Real.sqrt_zero]
    rw [hzero]
    simp
  exact ⟨key q1, (key q1).trans (key q2).symm⟩

/-- C2 amended, witness: with the all-zero weight vector the query scores 0
against both `AAAAAAAAA` and `CAAAAAAAA`. -/
theorem claim_c2_zero_weights_witness :
    internalRelatedDistance (List.replicate 9 'A') (List.replicate 9 'A')
      (some (List.replicate 9 0)) = 0 ∧
    internalRelatedDistance (List.replicate 9 'A') (List.replicate 9 'A')
      (some (List.replicate 9 0)) =
      internalRelatedDistance (List.replicate 9 'A') (['C'] ++ List.replicate 8 'A')
        (some (List.replicate 9 0)) :=
  claim_c2_zero_weights _ _ _ _ (by intro x hx; exact List.eq_of_mem_replicate hx)

/-- C8: the annotated z-score of row `i` is `(s_i - mean) / sd` whenever the
sample standard deviation `sd` (the `N - 1` denominator convention of the
`seriesStd` embedding) is defined and non-zero; with fewer than two scores or
a zero standard deviation the entry is NaN (`none`) — surfaced as undefined,
never coerced to a number; and the standard deviation, when defined, is
exactly the square root of the `N - 1`-normalized variance, which requires
`N ≥ 2`. -/
theorem claim_c8_zscore (xs : List ℝ) (i : ℕ) (hi : i < xs.length) :
    (∀ sd, seriesStd xs = some sd → sd ≠ 0 →
      (zscoreColumn xs).getD i none = some ((xs.getD i 0 - seriesMean xs) / sd)) ∧
    ((xs.length < 2 ∨ seriesStd xs = some 0) → (zscoreColumn xs).getD i none = none) ∧
    (∀ sd, seriesStd xs = some sd →
      sd = Real.sqrt ((xs.map (fun x => (x - seriesMean xs) ^ 2)).sum /
        ((xs.length : ℝ) - 1)) ∧ 2 ≤ xs.length) := by
  have hx : xs[i]? = some (xs.getD i 0) := by
    rw [List.getElem?_eq_getElem hi]
    simp [List.getD_eq_getElem?_getD, List.getElem?_eq_getElem hi]
  have hz0 : (zscoreColumn xs)[i]? =
      some (match seriesStd xs with
            | none => none
            | some sd => if sd = 0 then none
                         else some ((xs.getD i 0 - seriesMean xs) / sd)) := by
    rw [zscoreColumn, List.getElem?_map, hx]
    rfl
  have hz : (zscoreColumn xs).getD i none =
      (match seriesStd xs with
       | none => none
       | some sd => if sd = 0 then none
                    else some ((xs.getD i 0 - seriesMean xs) / sd)) := by
    rw [List.getD_eq_getElem?_getD, hz0]
    rfl
  refine ⟨?_, ?_, ?_⟩
  · intro sd hsd hne
    rw [hz, hsd]
    simp [hne]
  · intro h
    rcases h with h | h
    · have hnone : seriesStd xs = none := by simp [seriesStd, h]
      rw [hz, hnone]
    · rw [hz, h]
      simp
  · intro sd hsd
    unfold seriesStd at hsd
    by_cases h2 : xs.length < 2
    · simp [h2] at hsd
    · simp only [h2, if_false] at hsd
      exact ⟨(Option.some.inj hsd).symm, by omega⟩

/-- C8 witness at the two-element batch `[0, 1]`, row 0. -/
theorem claim_c8_zscore_witness :
    (∀ sd, seriesStd [(0:ℝ), 1] = some sd → sd ≠ 0 →
      (zscoreColumn [(0:ℝ), 1]).getD 0 none =
        some (([(0:ℝ), 1].getD 0 0 - seriesMean [(0:ℝ), 1]) / sd)) ∧
    (([(0:ℝ), 1].length < 2 ∨ seriesStd [(0:ℝ), 1] = some 0) →
      (zscoreColumn [(0:ℝ), 1]).getD 0 none = none) ∧
    (∀ sd, seriesStd [(0:ℝ), 1] = some sd →
      sd = Real.sqrt (([(0:ℝ), 1].map (fun x => (x - seriesMean [(0:ℝ), 1]) ^ 2)).sum /
        (([(0:ℝ), 1].length : ℝ) - 1)) ∧ 2 ≤ [(0:ℝ), 1].length) :=
  claim_c8_zscore [0, 1] 0 (by norm_num)

/-- C9: each derived-view operation of the result container replaces the held
table with the corresponding table transformation and leaves every other
field — query, allele, position weights, expression, analysis, timestamp —
unchanged, returning the updated container itself for chaining.  For `select`
this is the behavior whenever the column projection succeeds; when a
requested column is absent the projection raises `KeyError`, the error
propagates, and no container (with the table never reassigned) is returned. -/
theorem claim_c9_result_views (r : xrResult) (columns : List String)
    (condition : AssocRow → Bool) (kwargs : List (String × (ℕ → Cell))) :
    ((∀ t, selectTable r.result columns = Except.ok t →
        r.select columns = Except.ok
          { query := r.query, result := t, allele := r.allele,
            expression := r.expression, analysis := r.analysis,
            position_weight := r.position_weight, timestamp := r.timestamp }) ∧
     (∀ e, selectTable r.result columns = Except.error e →
        r.select columns = Except.error e)) ∧
    ((r.filter condition).result = r.result.filter condition ∧
     (r.filter condition).query = r.query ∧
     (r.filter condition).allele = r.allele ∧
     (r.filter condition).position_weight = r.position_weight ∧
     (r.filter condition).expression = r.expression ∧
     (r.filter condition).analysis = r.analysis ∧
     (r.filter condition).timestamp = r.timestamp) ∧
    ((r.mutate kwargs).result = mutateTable r.result kwargs ∧
     (r.mutate kwargs).query = r.query ∧
     (r.mutate kwargs).allele = r.allele ∧
     (r.mutate kwargs).position_weight = r.position_weight ∧
     (r.mutate kwargs).expression = r.expression ∧
     (r.mutate kwargs).analysis = r.analysis ∧
     (r.mutate kwargs).timestamp = r.timestamp) := by
  refine ⟨⟨?_, ?_⟩,
    ⟨rfl, rfl, rfl, rfl, rfl, rfl, rfl⟩,
    ⟨rfl, rfl, rfl, rfl, rfl, rfl, rfl⟩⟩
  · intro t ht
    simp only [xrResult.select, ht]
  · intro e he
    simp only [xrResult.select, he]

/-- A concrete result container for the C9 witness. -/
def c9Result : xrResult :=
  { query := ['E', 'V', 'D', 'P', 'I', 'G', 'H', 'L', 'Y']
    result := [[("subject", Cell.str ['E', 'S', 'D', 'P', 'I', 'V', 'A', 'Q', 'Y']),
                ("rank", Cell.nat 1)],
               [("subject", Cell.str ['E', 'V', 'D', 'P', 'I', 'G', 'H', 'F', 'Y']),
                ("rank", Cell.nat 2)]]
    allele := "HLA-A*01:01"
    expression := []
    analysis := []
    position_weight := []
    timestamp := "2024-01-01 00:00:00" }

/-- C9 witness: the derived views at a concrete container, selecting the
`rank` column, filtering with the constant-true predicate, and mutating with
no keyword arguments. -/
theorem claim_c9_result_views_witness :
    ((∀ t, selectTable c9Result.result ["rank"] = Except.ok t →
        c9Result.select ["rank"] = Except.ok
          { query := c9Result.query, result := t, allele := c9Result.allele,
            expression := c9Result.expression, analysis := c9Result.analysis,
            position_weight := c9Result.position_weight,
            timestamp := c9Result.timestamp }) ∧
     (∀ e, selectTable c9Result.result ["rank"] = Except.error e →
        c9Result.select ["rank"] = Except.error e)) ∧
    ((c9Result.filter (fun _ => true)).result = c9Result.result.filter (fun _ => true) ∧
     (c9Result.filter (fun _ => true)).query = c9Result.query ∧
     (c9Result.filter (fun _ => true)).allele = c9Result.allele ∧
     (c9Result.filter (fun _ => true)).position_weight = c9Result.position_weight ∧
     (c9Result.filter (fun _ => true)).expression = c9Result.expression ∧
     (c9Result.filter (fun _ => true)).analysis = c9Result.analysis ∧
     (c9Result.filter (fun _ => true)).timestamp = c9Result.timestamp) ∧
    ((c9Result.mutate []).result = mutateTable c9Result.result [] ∧
     (c9Result.mutate []).query = c9Result.query ∧
     (c9Result.mutate []).allele = c9Result.allele ∧
     (c9Result.mutate []).position_weight = c9Result.position_weight ∧
     (c9Result.mutate []).expression = c9Result.expression ∧
     (c9Result.mutate []).analysis = c9Result.analysis ∧
     (c9Result.mutate []).timestamp = c9Result.timestamp) :=
  claim_c9_result_views c9Result ["rank"] (fun _ => true) []

lemma exceptBind_ok {ε α β : Type} (a : α) (f : α → Except ε β) :
    (Except.ok a : Except ε α) >>= f = f a := rfl

lemma exceptBind_error {ε α β : Type} (e : ε) (f : α → Except ε β) :
    (Except.error e : Except ε α) >>= f = Except.error e := rfl

lemma exceptMapError_ok {ε ε' α : Type} (f : ε → ε') (a : α) :
    (Except.ok a : Except ε α).mapError f = Except.ok a := rfl

lemma exceptMapError_error {ε ε' α : Type} (f : ε → ε') (e : ε) :
    (Except.error e : Except ε α).mapError f = Except.error (f e) := rfl

/-- `mapM` over `Except` succeeds pointwise: when every element maps to a
success, the whole traversal is the success of the mapped list. -/
lemma mapM_ok_of_forall {α β ε : Type} (f : α → Except ε β) (g : α → β) :
    ∀ l : List α, (∀ a ∈ l, f a = Except.ok (g a)) → l.mapM f = Except.ok (l.map g)
  | [], _ => rfl
  | a :: t, h => by
      have ha := h a (List.mem_cons_self a t)
      have ht := mapM_ok_of_forall f g t (fun x hx => h x (List.mem_cons_of_mem a hx))
      rw [List.mapM_cons, ha, exceptBind_ok, ht, exceptBind_ok]
      rfl

/-- `mapM` over `Except` fails atomically: if some element of the list can
never succeed, the whole traversal is never a success. -/
lemma mapM_not_ok_of_mem {α β ε : Type} (f : α → Except ε β) :
    ∀ l : List α, (∃ a ∈ l, ∀ b, f a ≠ Except.ok b) → ∀ r, l.mapM f ≠ Except.ok r
  | [], h => by
      rcases h with ⟨a, ha, _⟩
      exact absurd ha (List.not_mem_nil a)
  | a :: t, h => fun r hr => by
      rw [List.mapM_cons] at hr
      rcases h with ⟨x, hx, hfail⟩
      rcases List.mem_cons.mp hx with rfl | hxt
      · rcases hfa : f x with e | b
        · rw [hfa, exceptBind_error] at hr
          exact Except.noConfusion hr
        · exact hfail b hfa
      · rcases hfa : f a with e | b
        · rw [hfa, exceptBind_error] at hr
          exact Except.noConfusion hr
        · rw [hfa, exceptBind_ok] at hr
          rcases hmt : t.mapM f with e' | xs
          · rw [hmt, exceptBind_error] at hr
            exact Except.noConfusion hr
          · exact mapM_not_ok_of_mem f t ⟨x, hxt, hfail⟩ xs hmt

/-- The raw measurement row `cross_compose` records for one background member
once both peptides have passed validation (validation returns its input
unchanged, so the validated components coincide with the inputs). -/
noncomputable def rawRowOf (query : List Char) (pw : List ℝ) (element : List Char) : RawRow :=
  { query := query
    subject := element
    relatedness_score := internalRelatedDistance query element (some pw)
    num_positive := numPositive query element
    num_negative := 9 - numPositive query element }

lemma getD_map_of_lt {α β : Type} (g : α → β) (l : List α) (i : ℕ)
    (hi : i < l.length) (d : α) (e : β) :
    (l.map g).getD i e = g (l.getD i d) := by
  rw [List.getD_eq_getElem?_getD, List.getElem?_map, List.getElem?_eq_getElem hi,
      List.getD_eq_getElem?_getD, List.getElem?_eq_getElem hi]
  rfl

lemma range_map_getD {β : Type} (n : ℕ) (fn : ℕ → β) (i : ℕ) (hi : i < n) (d : β) :
    ((List.range n).map fn).getD i d = fn i := by
  rw [List.getD_eq_getElem?_getD, List.getElem?_map, List.getElem?_range hi]
  rfl

lemma annotateTable_length (raws : List RawRow) (zs : List (Option ℝ)) (prs : List ℝ) :
    (annotateTable raws zs prs).length = raws.length := by
  simp [annotateTable]

lemma annotateTable_getD (raws : List RawRow) (zs : List (Option ℝ)) (prs : List ℝ)
    (i : ℕ) (hi : i < raws.length) :
    (annotateTable raws zs prs).getD i [] =
      annotatedRow (raws.getD i default) (zs.getD i none) (prs.getD i 0) (i + 1) := by
  unfold annotateTable
  rw [List.getD_eq_getElem?_getD, List.getElem?_map, List.getElem?_range hi]
  rfl

lemma annotatedRow_lookup_subject (raw : RawRow) (z : Option ℝ) (pr : ℝ) (rk : ℕ) :
    (annotatedRow raw z pr rk).lookup "subject" = some (Cell.str raw.subject) := rfl

lemma annotatedRow_lookup_score (raw : RawRow) (z : Option ℝ) (pr : ℝ) (rk : ℕ) :
    (annotatedRow raw z pr rk).lookup "relatedness_score" =
      some (Cell.real raw.relatedness_score) := rfl

lemma annotatedRow_lookup_rank (raw : RawRow) (z : Option ℝ) (pr : ℝ) (rk : ℕ) :
    (annotatedRow raw z pr rk).lookup "rank" = some (Cell.nat rk) := rfl

lemma annotatedRow_lookup_percentile (raw : RawRow) (z : Option ℝ) (pr : ℝ) (rk : ℕ) :
    (annotatedRow raw z pr rk).lookup "percentile_rank" = some (Cell.real pr) := rfl

/-- Success characterization of `cross_compose`: with a valid query, an
all-valid background of at least two peptides, and any weights, the call
returns the fully annotated table in background order. -/
lemma cross_compose_ok (query : List Char) (bg : xrBackground)
    (w : Option (List ℝ)) (now : String)
    (hq : internalCheckingPeptide query = Except.ok query)
    (hbg : ∀ p ∈ bg.peptides, internalCheckingPeptide p = Except.ok p)
    (hN : 2 ≤ bg.peptides.length) :
    cross_compose query bg w now = Except.ok
      { query := query
        result := annotateTable
          (bg.peptides.map (rawRowOf query (weightsOrDefault w)))
          (zscoreColumn ((bg.peptides.map (rawRowOf query (weightsOrDefault w))).map
            RawRow.relatedness_score))
          ((List.range bg.peptides.length).map
            (fun (rank : ℕ) => ((rank : ℝ) / ((bg.peptides.length : ℝ) - 1)) * 100))
        allele := bg.allele
        expression := []
        analysis := []
        position_weight := weightsOrDefault w
        timestamp := now } := by
  simp only [cross_compose]
  rw [hq, exceptMapError_ok, exceptBind_ok]
  rw [mapM_ok_of_forall _ (rawRowOf query (weightsOrDefault w)) bg.peptides ?hall]
  case hall =>
    intro p hp
    simp only [composeRow]
    rw [hbg p hp, exceptMapError_ok, exceptBind_ok]
    rfl
  rw [exceptBind_ok]
  rw [if_neg (by rw [List.length_map]; omega)]
  simp only [internalPercentileRank, List.length_map]
  rw [if_neg (by omega)]

/-- With a valid query and a valid singleton background, `cross_compose`
reaches `_internal_percentile_rank` with one score and dies on its
`ZeroDivisionError`: no table is returned. -/
lemma cross_compose_singleton_fails (a : String) (o d : ℕ) (query p : List Char)
    (w : Option (List ℝ)) (now : String)
    (hq : internalCheckingPeptide query = Except.ok query)
    (hp : internalCheckingPeptide p = Except.ok p) :
    cross_compose query { allele := a, peptides := [p], offTarget := o, database := d }
      w now = Except.error ComposeError.divisionByZero := by
  simp only [cross_compose]
  rw [hq, exceptMapError_ok, exceptBind_ok]
  rw [mapM_ok_of_forall _ (rawRowOf query (weightsOrDefault w)) [p] ?hall]
  case hall =>
    intro x hx
    simp only [composeRow]
    rw [List.mem_singleton.mp hx, hp, exceptMapError_ok, exceptBind_ok]
    rfl
  rw [exceptBind_ok]
  rw [if_neg (by simp)]
  simp [internalPercentileRank]

/-- C3 as stated is false at `N = 1`: batch scoring a valid singleton
background does not return a 1-row table — `_internal_percentile_rank`
divides by `N - 1 = 0` and the whole call raises, so no table at all is
produced. -/
theorem claim_c3_counterexample :
    cross_compose ['E', 'V', 'D', 'P', 'I', 'G', 'H', 'L', 'Y']
      { allele := "HLA-A*01:01",
        peptides := [['E', 'V', 'D', 'P', 'I', 'G', 'H', 'L', 'Y']],
        offTarget := 0, database := 1 } none "" =
      Except.error ComposeError.divisionByZero :=
  cross_compose_singleton_fails _ _ _ _ _ _ _ (by decide) (by decide)

/-- C3 amended: for every valid query and every background of `N ≥ 2` valid
peptides, batch scoring returns exactly `N` rows in the background's original
order, with the rank column `1..N` and the percentile-rank column
`100 * i / (N - 1)` assigned by zero-based row position, independent of the
score values; for `N = 1` the percentile computation divides by zero and for
`N = 0` the empty table's column access fails, so no table is returned. -/
theorem claim_c3_ranking_table (query : List Char) (bg : xrBackground)
    (w : Option (List ℝ)) (now : String)
    (hq : internalCheckingPeptide query = Except.ok query)
    (hbg : ∀ p ∈ bg.peptides, internalCheckingPeptide p = Except.ok p)
    (hN : 2 ≤ bg.peptides.length) :
    ∃ res, cross_compose query bg w now = Except.ok res ∧
      res.result.length = bg.peptides.length ∧
      ∀ i < bg.peptides.length,
        (res.result.getD i []).lookup "subject" =
          some (Cell.str (bg.peptides.getD i [])) ∧
        (res.result.getD i []).lookup "rank" = some (Cell.nat (i + 1)) ∧
        (res.result.getD i []).lookup "percentile_rank" =
          some (Cell.real (((i : ℝ) / ((bg.peptides.length : ℝ) - 1)) * 100)) := by
  refine ⟨_, cross_compose_ok query bg w now hq hbg hN, ?_, ?_⟩
  · rw [annotateTable_length, List.length_map]
  · intro i hi
    have hiraw : i < (bg.peptides.map (rawRowOf query (weightsOrDefault w))).length := by
      rw [List.length_map]
      exact hi
    rw [annotateTable_getD _ _ _ i hiraw]
    refine ⟨?_, ?_, ?_⟩
    · rw [annotatedRow_lookup_subject, getD_map_of_lt _ _ _ hi [] default]
      rfl
    · rw [annotatedRow_lookup_rank]
    · rw [annotatedRow_lookup_percentile, range_map_getD _ _ _ hi]

/-- C3 amended, witness: the test suite's query against a valid two-member
background. -/
def c3Background : xrBackground :=
  { allele := "HLA-A*01:01",
    peptides := [['E', 'S', 'D', 'P', 'I', 'V', 'A', 'Q', 'Y'],
                 ['E', 'V', 'D', 'P', 'I', 'G', 'H', 'F', 'Y']],
    offTarget := 0, database := 2 }

theorem claim_c3_ranking_table_witness :
    ∃ res, cross_compose ['E', 'V', 'D', 'P', 'I', 'G', 'H', 'L', 'Y'] c3Background
        none "" = Except.ok res ∧
      res.result.length = c3Background.peptides.length ∧
      ∀ i < c3Background.peptides.length,
        (res.result.getD i []).lookup "subject" =
          some (Cell.str (c3Background.peptides.getD i [])) ∧
        (res.result.getD i []).lookup "rank" = some (Cell.nat (i + 1)) ∧
        (res.result.getD i []).lookup "percentile_rank" =
          some (Cell.real (((i : ℝ) / ((c3Background.peptides.length : ℝ) - 1)) * 100)) :=
  claim_c3_ranking_table _ _ none "" (by decide) (by decide) (by decide)

/-- C6: batch scoring fails atomically — whenever some background member
fails validation, `cross_compose` as a whole returns an error and hence no
table (partial or otherwise) ever reaches the caller. -/
theorem claim_c6_atomic_failure (query : List Char) (bg : xrBackground)
    (w : Option (List ℝ)) (now : String)
    (h : ∃ p ∈ bg.peptides, (internalCheckingPeptide p).isOk = false) :
    ∃ e, cross_compose query bg w now = Except.error e := by
  rcases h with ⟨p, hp, hfalse⟩
  have herr : ∃ ep, internalCheckingPeptide p = Except.error ep := by
    rcases hcp : internalCheckingPeptide p with ep | lp
    · exact ⟨ep, rfl⟩
    · rw [hcp] at hfalse
      simp [Except.isOk, Except.toBool] at hfalse
  rcases herr with ⟨ep, hep⟩
  rcases hq : internalCheckingPeptide query with eq | qp
  · refine ⟨ComposeError.invalidPeptide eq, ?_⟩
    simp only [cross_compose]
    rw [hq, exceptMapError_error, exceptBind_error]
  · simp only [cross_compose]
    rw [hq, exceptMapError_ok, exceptBind_ok]
    rcases hm : bg.peptides.mapM (composeRow query qp (weightsOrDefault w)) with e | rows
    · refine ⟨e, ?_⟩
      rw [exceptBind_error]
    · exfalso
      refine mapM_not_ok_of_mem _ _ ⟨p, hp, ?_⟩ rows hm
      intro b hb
      simp only [composeRow] at hb
      rw [hep, exceptMapError_error, exceptBind_error] at hb
      exact Except.noConfusion hb

/-- C6 witness: a background whose second member `BADLENGTH` has length 9 but
contains residues outside the alphabet makes the whole batch fail. -/
theorem claim_c6_atomic_failure_witness :
    ∃ e, cross_compose ['E', 'V', 'D', 'P', 'I', 'G', 'H', 'L', 'Y']
        { allele := "HLA-A*01:01",
          peptides := [['E', 'S', 'D', 'P', 'I', 'V', 'A', 'Q', 'Y'],
                       ['B', 'A', 'D', 'L', 'E', 'N', 'G', 'T', 'H']],
          offTarget := 0, database := 2 } none "" = Except.error e :=
  claim_c6_atomic_failure _ _ _ _ (by decide)

/-- C10: the two public relatedness entry points disagree by the constant
factor `sqrt 9 = 3`: for any pair scored by the batch, `calculate_relatedness`
on the same pair and weights returns exactly the recorded per-pair
`relatedness_score` divided by `sqrt 9`, i.e. by 3 — the extra per-length
normalization the batch scorer does not apply. -/
theorem claim_c10_scaling (query : List Char) (bg : xrBackground)
    (w : Option (List ℝ)) (now : String) (i : ℕ)
    (hq : internalCheckingPeptide query = Except.ok query)
    (hbg : ∀ p ∈ bg.peptides, internalCheckingPeptide p = Except.ok p)
    (hN : 2 ≤ bg.peptides.length) (hi : i < bg.peptides.length) :
    ∃ res s, cross_compose query bg w now = Except.ok res ∧
      (res.result.getD i []).lookup "relatedness_score" = some (Cell.real s) ∧
      calculate_relatedness query (bg.peptides.getD i []) w =
        Except.ok (s / Real.sqrt 9) ∧
      s / Real.sqrt 9 = s / 3 := by
  refine ⟨_, internalRelatedDistance query (bg.peptides.getD i []) (some (weightsOrDefault w)),
    cross_compose_ok query bg w now hq hbg hN, ?_, ?_, ?_⟩
  · have hiraw : i < (bg.peptides.map (rawRowOf query (weightsOrDefault w))).length := by
      rw [List.length_map]
      exact hi
    rw [annotateTable_getD _ _ _ i hiraw, annotatedRow_lookup_score,
        getD_map_of_lt _ _ _ hi [] default]
    rfl
  · have hmem : bg.peptides.getD i [] ∈ bg.peptides := by
      rw [List.getD_eq_getElem?_getD, List.getElem?_eq_getElem hi]
      exact List.getElem_mem hi
    have hc := hbg _ hmem
    simp only [calculate_relatedness]
    rw [hq, exceptBind_ok, hc, exceptBind_ok]
    have h9 : query.length = 9 := ((internalCheckingPeptide_ok_iff query).mp hq).1
    rw [h9]
    norm_num
  · rw [show (9:ℝ) = 3 ^ 2 by norm_num, Real.sqrt_sq (by norm_num : (0:ℝ) ≤ 3)]

/-- C10 witness: the test suite's query against a valid two-member
background, row 0. -/
def c10Background : xrBackground :=
  { allele := "HLA-A*01:01",
    peptides := [['E', 'S', 'D', 'P', 'I', 'V', 'A', 'Q', 'Y'],
                 ['E', 'V', 'D', 'P', 'I', 'G', 'L', 'L', 'Y']],
    offTarget := 0, database := 2 }

theorem claim_c10_scaling_witness :
    ∃ res s, cross_compose ['E', 'V', 'D', 'P', 'I', 'G', 'H', 'L', 'Y'] c10Background
        none "" = Except.ok res ∧
      (res.result.getD 0 []).lookup "relatedness_score" = some (Cell.real s) ∧
      calculate_relatedness ['E', 'V', 'D', 'P', 'I', 'G', 'H', 'L', 'Y']
        (c10Background.peptides.getD 0 []) none = Except.ok (s / Real.sqrt 9) ∧
      s / Real.sqrt 9 = s / 3 :=
  claim_c10_scaling _ _ none "" 0 (by decide) (by decide) (by decide) (by decide)

end Crossdome
